import Mathlib

/-!
Verification of the HTTPLocation handler
(rekall_agent/locations/http.py): capability-policy issuance,
conditional cache materialization (get_local_filename), the remote
operation wrappers, and the optimistic-concurrency read-modify-write
protocol (read_modify_write_local_file), shallowly embedded as pure
state-passing functions.
-/

namespace RekallHTTP

/-- An HTTP response as observed through the requests library: a numeric
status code, an optional ETag header value, and a body (backing both
response.text and response.content). -/
structure Response where
  status_code : Nat
  etag : Option String
  body : String
deriving DecidableEq

/-- requests semantics: response.ok is true exactly when the status code is
below 400 (raise_for_status raises only for 4xx and 5xx).  In particular a
304 response satisfies ok. -/
def Response.ok (r : Response) : Bool :=
  decide (r.status_code < 400)

/-- response.text, the body as text. -/
def Response.text (r : Response) : String := r.body

/-- requests semantics: bool(response) is response.ok (Response.__nonzero__),
not mere presence. -/
def Response.pyTruthy (r : Response) : Bool := r.ok

/-- Modelled from the spec: location.Status is a numeric response code plus
an optional message, populated with text only on failure. -/
structure Status where
  code : Nat
  message : Option String
deriving DecidableEq

/-- Python truthiness of an optional string: None and the empty string are
falsy, every other string is truthy. -/
def pyTruthyOptStr : Option String → Bool
  | none => false
  | some s => decide (s ≠ "")

/-- Python str.startswith as a character-level list test. -/
def pyStartswith (s p : String) : Bool :=
  List.isPrefixOf p.data s.data

/-- json.loads restricted to the shapes an ETag header takes in this
protocol: a JSON-quoted token (the documented wire contract) or a bare
integer literal; any other input raises ValueError, modelled as none. -/
def json_loads_string (s : String) : Option String :=
  if 2 ≤ s.length ∧ s.front = '"' ∧ s.back = '"' then
    some ((s.drop 1).dropRight 1)
  else if s ≠ "" ∧ s.data.all Char.isDigit then
    some s
  else
    none

/-- Reading then json-parsing the ETag response header; none models the
exception path (KeyError when the header is missing, ValueError when it is
unparseable). -/
def etagGen (r : Response) : Option String :=
  match r.etag with
  | none => none
  | some raw => json_loads_string raw

/-- A local cache entry: the server generation and the local file path. -/
structure CacheEntry where
  generation : String
  path : String
deriving DecidableEq

/-- Modelled from the spec: the LocalCache collaborator, a map from canonical
URL to its entry. -/
def Cache : Type := String → Option CacheEntry

/-- Modelled from the spec: get_generation returns the cached generation
token for the URL, if any. -/
def Cache.get_generation (c : Cache) (url : String) : Option String :=
  (c url).map CacheEntry.generation

/-- Modelled from the spec: get_local_file returns the cached local path for
the URL (the code only calls it at the currently cached generation). -/
def Cache.get_local_file (c : Cache) (url : String) (_gen : Option String) : String :=
  match c url with
  | some e => e.path
  | none => ""

/-- Deterministic name of the cache-owned file for (url, generation). -/
def storedPath (url gen : String) : String := url ++ "#" ++ gen

/-- Modelled from the spec: store_at_generation streams the body into the
cache under (url, generation) and returns the resulting local path. -/
def Cache.store_at_generation (c : Cache) (url gen : String) : Cache × String :=
  (fun u => if u = url then some (CacheEntry.mk gen (storedPath url gen)) else c u,
   storedPath url gen)

/-- Modelled from the spec: update_local_file_generation moves the given
local file into cache ownership at the new generation. -/
def Cache.update_local_file_generation (c : Cache) (url gen filePath : String) : Cache :=
  fun u => if u = url then some (CacheEntry.mk gen filePath) else c u

/-- Modelled from the spec: expire removes the entry for the URL. -/
def Cache.expire (c : Cache) (url : String) : Cache :=
  fun u => if u = url then none else c u

/-- Outcome of _report_error: a normal return of response.ok, a return of
the completion routine's value, a raised IOError, or the AttributeError hit
when response is None and response.text is evaluated. -/
inductive ReportOut where
  | ret : Bool → Option Status → ReportOut
  | cbReturn : Status → ReportOut
  | ioError : String → ReportOut
  | attrError : ReportOut
deriving DecidableEq

/-- The status delivered to the completion routine during the call, if it
was invoked. -/
def ReportOut.delivered : ReportOut → Option Status
  | ReportOut.ret _ d => d
  | ReportOut.cbReturn st => some st
  | ReportOut.ioError _ => none
  | ReportOut.attrError => none

/-- Whether the call raised instead of returning. -/
def ReportOut.raisesErr : ReportOut → Bool
  | ReportOut.ioError _ => true
  | ReportOut.attrError => true
  | ReportOut.ret _ _ => false
  | ReportOut.cbReturn _ => false

/-- _report_error.  The Python guard `if response:` tests the requests
truthiness of the response, which is response.ok rather than presence, so a
present-but-failed response builds Status(500, message) in the else arm. -/
def report_error (hasCb : Bool) (response : Option Response) (message : Option String) :
    ReportOut :=
  match response with
  | some r =>
    let status :=
      if r.pyTruthy then
        if !r.ok then Status.mk r.status_code (some r.text)
        else Status.mk r.status_code none
      else
        Status.mk 500 message
    if !r.ok then
      if hasCb then ReportOut.cbReturn status else ReportOut.ioError r.text
    else
      ReportOut.ret r.ok (if hasCb then some status else none)
  | none =>
    if hasCb then ReportOut.cbReturn (Status.mk 500 message)
    else ReportOut.attrError

/-- read_file: GET; returns the body on a successful response and the empty
string otherwise, with no error signalled on either path. -/
def read_file (resp : Response) : String :=
  if resp.ok then resp.body else ""

/-- upload_file_object: PUT the stream, then route the response through
_report_error. -/
def upload_file_object (hasCb : Bool) (resp : Response) : ReportOut :=
  report_error hasCb (some resp) none

/-- A parsed stat record from a listing, kept abstract. -/
structure LocationStat where
  raw : String
deriving DecidableEq

/-- list_files: GET with action=list; a generator that yields the parsed
stat records on a successful response and yields nothing otherwise (the
parseStats argument models json.loads plus LocationStat.from_primitive on
each element, in response order). -/
def list_files (parseStats : String → List LocationStat) (resp : Response) :
    List LocationStat :=
  if resp.ok then parseStats resp.text else []

/-- delete: GET with action=delete, then route the response through
_report_error. -/
def delete (hasCb : Bool) (resp : Response) : ReportOut :=
  report_error hasCb (some resp) none

/-- Outcome of get_local_filename: a returned local path, an error-path
return or raise through _report_error, or the KeyError/ValueError raised
while reading the ETag of a successful response. -/
inductive GlfOut where
  | filename : String → GlfOut
  | reported : ReportOut → GlfOut
  | keyError : GlfOut
deriving DecidableEq

/-- Result of get_local_filename: the If-None-Match header attached to the
GET, the cache after the call, the status delivered to the completion
routine (none when it was never invoked), and the outcome. -/
structure GlfResult where
  ifNoneMatch : Option String
  cache : Cache
  delivered : Option Status
  out : GlfOut

/-- get_local_filename: conditional cache materialization.  The response is
the environment's answer to the single GET issued by the call. -/
def get_local_filename (c : Cache) (url : String) (hasCb : Bool) (resp : Response) :
    GlfResult :=
  let current_generation := Cache.get_generation c url
  let inm := if pyTruthyOptStr current_generation then current_generation else none
  if resp.status_code = 304 then
    GlfResult.mk inm c none
      (GlfOut.filename (Cache.get_local_file c url current_generation))
  else if !resp.ok then
    let c2 := if resp.status_code = 404 then Cache.expire c url else c
    let rep := report_error hasCb (some resp) none
    GlfResult.mk inm c2 (ReportOut.delivered rep) (GlfOut.reported rep)
  else
    match etagGen resp with
    | none => GlfResult.mk inm c none GlfOut.keyError
    | some gen =>
      let stored := Cache.store_at_generation c url gen
      let rep := report_error hasCb (some resp) none
      GlfResult.mk inm stored.1 (ReportOut.delivered rep) (GlfOut.filename stored.2)

/-- Whether the get_local_filename call raised instead of returning. -/
def GlfResult.raisesErr (r : GlfResult) : Bool :=
  match r.out with
  | GlfOut.reported rep => rep.raisesErr
  | GlfOut.keyError => true
  | GlfOut.filename _ => false

/-- Per-attempt environment of the read-modify-write loop: the server's
answer to the GET inside get_local_filename, whether the caller's
modification callback raises on this attempt, and the server's answer to
the PUT. -/
structure AttemptEnv where
  getResp : Response
  cbRaises : Bool
  putResp : Response

/-- How a read_modify_write_local_file call ends: returning True, silently
falling off the exhausted loop returning None, raising
IOError(Unable to update), the modification callback's exception
propagating, or an uncaught non-IOError exception (KeyError/ValueError on
the ETag). -/
inductive RmwOut where
  | success : RmwOut
  | silentNone : RmwOut
  | unable : RmwOut
  | cbExn : RmwOut
  | uncaughtExn : RmwOut
deriving DecidableEq

/-- Mutable state threaded through the retry loop.  ifMatch models the
headers dict created once before the loop: an If-Match entry written in an
earlier attempt persists.  live is the list of scratch files created by
tempfile.mkstemp and not yet unlinked. -/
structure LoopState where
  cache : Cache
  ifMatch : Option String
  sleeps : List Nat
  putAttempts : Nat
  live : List String

/-- Observable result of read_modify_write_local_file: the outcome, the
final cache, the number of PUT requests issued, the retry indices at which
time.sleep(0.1 * retry) ran, and the scratch files still on disk. -/
structure RmwResult where
  out : RmwOut
  cache : Cache
  putAttempts : Nat
  sleeps : List Nat
  live : List String

/-- One loop iteration either terminates the call or continues retrying. -/
inductive StepRes where
  | done : RmwResult → StepRes
  | again : LoopState → StepRes

def rmwFinish (st : LoopState) (o : RmwOut) : RmwResult :=
  RmwResult.mk o st.cache st.putAttempts st.sleeps st.live

/-- Name of the scratch file tempfile.mkstemp creates on attempt k. -/
def scratchName (k : Nat) : String := "scratch-" ++ toString k

/-- The finally clause: unlink the scratch file when
local_file_should_be_removed is still set. -/
def finallyClean (flag : Bool) (fname : String) (live : List String) : List String :=
  if flag then live.erase fname else live

/-- Classification of get_local_filename's outcome as seen inside the
protocol, which calls it with no completion routine and catches only
IOError; every other exception propagates uncaught. -/
inductive GlfInRmw where
  | file : String → GlfInRmw
  | ioErr : GlfInRmw
  | exn : GlfInRmw

def glfClassify : GlfOut → GlfInRmw
  | GlfOut.filename p => GlfInRmw.file p
  | GlfOut.reported (ReportOut.ioError _) => GlfInRmw.ioErr
  | GlfOut.reported _ => GlfInRmw.exn
  | GlfOut.keyError => GlfInRmw.exn

/-- The tail of one attempt, after the local file was materialized: run the
modification callback, set If-Match when the captured generation is truthy,
issue the PUT, and dispatch on the response; the finally clause unlinks the
scratch file unless the flag was cleared by a committed upload. -/
def rmwModifyAndPut (url : String) (retry : Nat) (env : AttemptEnv) (st : LoopState)
    (fname : String) (curGen : Option String) (flag : Bool) : StepRes :=
  if env.cbRaises then
    StepRes.done (rmwFinish
      (LoopState.mk st.cache st.ifMatch st.sleeps st.putAttempts
        (finallyClean flag fname st.live)) RmwOut.cbExn)
  else
    let ifM := if pyTruthyOptStr curGen then curGen else st.ifMatch
    let resp := env.putResp
    let n := st.putAttempts + 1
    if resp.ok then
      match etagGen resp with
      | some ng =>
        StepRes.done (rmwFinish
          (LoopState.mk (Cache.update_local_file_generation st.cache url ng fname)
            ifM st.sleeps n st.live) RmwOut.success)
      | none =>
        StepRes.done (rmwFinish
          (LoopState.mk st.cache ifM st.sleeps n
            (finallyClean flag fname st.live)) RmwOut.uncaughtExn)
    else if resp.status_code = 304 then
      StepRes.again (LoopState.mk st.cache ifM (st.sleeps ++ [retry]) n
        (finallyClean flag fname st.live))
    else
      StepRes.done (rmwFinish
        (LoopState.mk st.cache ifM st.sleeps n
          (finallyClean flag fname st.live)) RmwOut.unable)

/-- One iteration of the retry loop: materialize via get_local_filename
(no completion routine), falling back to a fresh scratch file when it
raises IOError, then modify and PUT. -/
def rmwAttempt (url : String) (retry : Nat) (env : AttemptEnv) (st : LoopState) : StepRes :=
  let g := get_local_filename st.cache url false env.getResp
  match glfClassify g.out with
  | GlfInRmw.exn =>
    StepRes.done (rmwFinish
      (LoopState.mk g.cache st.ifMatch st.sleeps st.putAttempts st.live)
      RmwOut.uncaughtExn)
  | GlfInRmw.file fname =>
    rmwModifyAndPut url retry env
      (LoopState.mk g.cache st.ifMatch st.sleeps st.putAttempts st.live)
      fname (Cache.get_generation g.cache url) false
  | GlfInRmw.ioErr =>
    rmwModifyAndPut url retry env
      (LoopState.mk g.cache st.ifMatch st.sleeps st.putAttempts
        (scratchName retry :: st.live))
      (scratchName retry) none true

/-- The for-retry-in-range(5) loop; when the fuel runs out the function
falls off the end of the loop and returns None. -/
def rmwLoop (url : String) (envs : Nat → AttemptEnv) : Nat → Nat → LoopState → RmwResult
  | 0, _, st => rmwFinish st RmwOut.silentNone
  | f + 1, retry, st =>
    match rmwAttempt url retry (envs retry) st with
    | StepRes.done r => r
    | StepRes.again st2 => rmwLoop url envs f (retry + 1) st2

/-- read_modify_write_local_file: the optimistic-concurrency protocol. -/
def read_modify_write_local_file (c : Cache) (url : String) (envs : Nat → AttemptEnv) :
    RmwResult :=
  rmwLoop url envs 5 0 (LoopState.mk c none [] 0 [])

/-- Result of upload_local_file: the upload's report outcome and whether the
named local file was unlinked. -/
structure UlfResult where
  rep : ReportOut
  unlinked : Bool
deriving DecidableEq

/-- upload_local_file: open the named file if given, upload it, then unlink
it when the delete flag and the name are truthy.  When upload_file_object
raises (failure with no completion routine) the exception propagates before
the unlink is reached. -/
def upload_local_file (local_filename : Option String) (hasCb : Bool)
    (deleteFlag : Bool) (resp : Response) : UlfResult :=
  match upload_file_object hasCb resp with
  | ReportOut.ioError m => UlfResult.mk (ReportOut.ioError m) false
  | ReportOut.attrError => UlfResult.mk ReportOut.attrError false
  | r => UlfResult.mk r (deleteFlag && pyTruthyOptStr local_filename)

/-- The URLPolicy record. -/
structure URLPolicy where
  pathPrefix : String
  pathTemplate : String
  expires : Nat
  methods : List String
  publicFlag : Bool
deriving DecidableEq

/-- The HTTPLocation value object. -/
structure HTTPLocation where
  base : String
  pathPrefix : String
  pathTemplate : String
  policy : String
  signature : String
deriving DecidableEq

/-- Modelled from the spec: serializer.SerializedObject.to_json, the
deterministic serialization of the policy fields (the serializer module is
an external collaborator; the property the spec requires of it is
determinism, which holds of any function). -/
def policyToJson (p : URLPolicy) : String :=
  p.pathPrefix ++ "|" ++ p.pathTemplate ++ "|" ++ toString p.expires ++ "|"
    ++ String.intercalate "," p.methods ++ "|" ++ toString p.publicFlag

/-- The configuration collaborator: the server base URL and the signing
primitive of the server private key. -/
structure ServerConfig where
  base_url : String
  sign : String → String

/-- HTTPLocation.New: capability-policy issuance.  now models time.time(). -/
def HTTPLocation.New (cfg : ServerConfig) (now : Nat) (pathPrefixArg : String)
    (methodsArg : Option (List String)) (expirationArg : Option Nat)
    (pathTemplateArg : String) (publicArg : Bool) : HTTPLocation :=
  let expiration := match expirationArg with
    | none => now + 60 * 60 * 24 * 7
    | some e => e
  let methods := match methodsArg with
    | none => ["GET", "PUT"]
    | some m => m
  let pp := if pyStartswith pathPrefixArg "/" then pathPrefixArg
    else "/" ++ pathPrefixArg
  let policyData := policyToJson (URLPolicy.mk pp pathTemplateArg expiration methods publicArg)
  HTTPLocation.mk cfg.base_url pp pathTemplateArg policyData (cfg.sign policyData)

/-! Concrete inputs used by counterexamples and witnesses. -/

/-- The empty cache. -/
def emptyCache : Cache := fun _ => none

/-- A cache holding generation g with local path p for URL u. -/
def cacheGP : Cache :=
  fun u => if u = "u" then some (CacheEntry.mk "g" "p") else none

def resp304 : Response := Response.mk 304 none ""

def resp404 : Response := Response.mk 404 none "gone"

def resp500 : Response := Response.mk 500 none "boom"

def resp200g1 : Response := Response.mk 200 (some "\"g1\"") "body"

def put200g2 : Response := Response.mk 200 (some "\"g2\"") ""

def put304 : Response := Response.mk 304 none ""

/-- A server that answers the GET with the object at generation g1 and
refuses every PUT with a bare 304 precondition-conflict answer. -/
def envAll304 : Nat → AttemptEnv := fun _ => AttemptEnv.mk resp200g1 false put304

/-- A server where the object is absent (404 on GET) and the unconditional
create PUT commits at generation g2. -/
def envCreate : Nat → AttemptEnv := fun _ => AttemptEnv.mk resp404 false put200g2

/-! Helper lemmas: the retry loop can never run a second iteration, because
a PUT answered 304 satisfies response.ok and therefore takes the success
branch, so the continue statement is unreachable. -/

theorem rmwModifyAndPut_done (url : String) (retry : Nat) (env : AttemptEnv)
    (st : LoopState) (fname : String) (curGen : Option String) (flag : Bool) :
    ∃ r, rmwModifyAndPut url retry env st fname curGen flag = StepRes.done r := by
  unfold rmwModifyAndPut
  cases hcb : env.cbRaises
  · cases hok : env.putResp.ok
    · have h304 : ¬ env.putResp.status_code = 304 := by
        intro h
        simp [Response.ok, h] at hok
      simp [hok, h304]
    · cases hg : etagGen env.putResp <;> simp [hok, hg]
  · simp

theorem rmwAttempt_done (url : String) (retry : Nat) (env : AttemptEnv) (st : LoopState) :
    ∃ r, rmwAttempt url retry env st = StepRes.done r := by
  unfold rmwAttempt
  cases h : glfClassify (get_local_filename st.cache url false env.getResp).out
  · simp only [h]
    exact rmwModifyAndPut_done _ _ _ _ _ _ _
  · simp only [h]
    exact rmwModifyAndPut_done _ _ _ _ _ _ _
  · simp only [h]
    exact ⟨_, rfl⟩

/-- The whole call is decided by attempt 0. -/
theorem rmw_eq_attempt0 (c : Cache) (url : String) (envs : Nat → AttemptEnv) :
    StepRes.done (read_modify_write_local_file c url envs) =
      rmwAttempt url 0 (envs 0) (LoopState.mk c none [] 0 []) := by
  obtain ⟨r, hr⟩ := rmwAttempt_done url 0 (envs 0) (LoopState.mk c none [] 0 [])
  have hstep : read_modify_write_local_file c url envs =
      match rmwAttempt url 0 (envs 0) (LoopState.mk c none [] 0 []) with
      | StepRes.done r => r
      | StepRes.again st2 => rmwLoop url envs 4 1 st2 := rfl
  rw [hstep, hr]

/-- A single attempt either leaves the cache exactly as the GET phase left
it and the scratch accounting balanced, or commits a server-confirmed PUT
generation, taking ownership of the uploaded file. -/
theorem rmwModifyAndPut_spec (url : String) (retry : Nat) (env : AttemptEnv)
    (st : LoopState) (fname : String) (curGen : Option String) (flag : Bool)
    (res : RmwResult)
    (h : rmwModifyAndPut url retry env st fname curGen flag = StepRes.done res) :
    (res.cache = st.cache ∧ res.live = finallyClean flag fname st.live) ∨
    (env.putResp.ok = true ∧ ∃ ng, etagGen env.putResp = some ng ∧
      res.cache = Cache.update_local_file_generation st.cache url ng fname ∧
      res.live = st.live) := by
  unfold rmwModifyAndPut at h
  cases hcb : env.cbRaises <;> rw [hcb] at h
  · simp only [Bool.false_eq_true, if_false] at h
    cases hok : env.putResp.ok <;> rw [hok] at h
    · simp only [Bool.false_eq_true, if_false] at h
      by_cases h304 : env.putResp.status_code = 304
      · simp [Response.ok, h304] at hok
      · rw [if_neg h304] at h
        cases h
        exact Or.inl ⟨rfl, rfl⟩
    · simp only [if_true] at h
      cases hge : etagGen env.putResp <;> rw [hge] at h <;> cases h
      · exact Or.inl ⟨rfl, rfl⟩
      · exact Or.inr ⟨rfl, _, rfl, rfl, rfl⟩
  · simp only [if_true] at h
    cases h
    exact Or.inl ⟨rfl, rfl⟩

theorem rmwAttempt_spec (url : String) (retry : Nat) (env : AttemptEnv)
    (st : LoopState) (res : RmwResult)
    (h : rmwAttempt url retry env st = StepRes.done res) :
    (res.cache = (get_local_filename st.cache url false env.getResp).cache ∧
      res.live = st.live) ∨
    (env.putResp.ok = true ∧ ∃ ng fname,
      etagGen env.putResp = some ng ∧
      res.cache = Cache.update_local_file_generation
        (get_local_filename st.cache url false env.getResp).cache url ng fname ∧
      (res.live = st.live ∨
        (fname = scratchName retry ∧ res.live = fname :: st.live))) := by
  unfold rmwAttempt at h
  simp only [] at h
  cases hcl : glfClassify (get_local_filename st.cache url false env.getResp).out <;>
      rw [hcl] at h
  · rename_i fname
    rcases rmwModifyAndPut_spec _ _ _ _ _ _ _ _ h with ⟨hc, hl⟩ | ⟨hok, ng, hge, hc, hl⟩
    · exact Or.inl ⟨hc, hl⟩
    · exact Or.inr ⟨hok, ng, fname, hge, hc, Or.inl hl⟩
  · rcases rmwModifyAndPut_spec _ _ _ _ _ _ _ _ h with ⟨hc, hl⟩ | ⟨hok, ng, hge, hc, hl⟩
    · refine Or.inl ⟨hc, ?_⟩
      simpa [finallyClean] using hl
    · exact Or.inr ⟨hok, ng, scratchName retry, hge, hc, Or.inr ⟨rfl, hl⟩⟩
  · cases h
    exact Or.inl ⟨rfl, rfl⟩

/-- The cache after get_local_filename holds generation g for the URL only
if it already held it before, or the response was ok and its parsed ETag
is g. -/
theorem glf_gen_confirmed (c : Cache) (url : String) (hasCb : Bool) (resp : Response)
    (g : String)
    (h : Cache.get_generation (get_local_filename c url hasCb resp).cache url = some g) :
    Cache.get_generation c url = some g ∨ (resp.ok = true ∧ etagGen resp = some g) := by
  unfold get_local_filename at h
  split at h
  · exact Or.inl h
  · split at h
    · by_cases h404 : resp.status_code = 404
      · rw [if_pos h404] at h
        simp [Cache.get_generation, Cache.expire] at h
      · rw [if_neg h404] at h
        exact Or.inl h
    · rename_i hok
      cases hge : etagGen resp <;> rw [hge] at h
      · exact Or.inl h
      · rename_i gen
        simp [Cache.get_generation, Cache.store_at_generation] at h
        refine Or.inr ⟨?_, ?_⟩
        · simp only [Bool.not_eq_true] at hok
          simp at hok
          exact hok
        · rw [h]

/-- Claim C1 (code bug): against a server that reports a precondition
conflict with status 304 on the PUT, read_modify_write_local_file does not
make 5 attempts with linearly increasing sleeps and a final conflict error.
Because requests treats 304 as ok, the first attempt takes the success
branch and raises an uncaught KeyError reading the absent ETag header:
exactly one PUT request, no sleep, no conflict error. -/
theorem C1_all304_single_attempt_uncaught :
    (read_modify_write_local_file emptyCache "u" envAll304).out = RmwOut.uncaughtExn ∧
    (read_modify_write_local_file emptyCache "u" envAll304).putAttempts = 1 ∧
    (read_modify_write_local_file emptyCache "u" envAll304).sleeps = [] :=
  ⟨rfl, rfl, rfl⟩

/-- Claim C4: when the cache holds a (truthy) generation for the canonical
URL, the GET carries If-None-Match with that generation, and a not-modified
(304) answer returns the already-stored cached local path with the cache
left untouched. -/
theorem C4_conditional_get_cache_hit (c : Cache) (url : String) (hasCb : Bool)
    (resp : Response) (e : CacheEntry) (hc : c url = some e)
    (hg : e.generation ≠ "") :
    (get_local_filename c url hasCb resp).ifNoneMatch = some e.generation ∧
    (resp.status_code = 304 →
      (get_local_filename c url hasCb resp).out = GlfOut.filename e.path ∧
      (get_local_filename c url hasCb resp).cache = c) := by
  have hgen : Cache.get_generation c url = some e.generation := by
    simp [Cache.get_generation, hc]
  refine ⟨?_, fun h304 => ?_⟩
  · unfold get_local_filename
    split
    · simp [hgen, pyTruthyOptStr, hg]
    · split
      · simp [hgen, pyTruthyOptStr, hg]
      · cases etagGen resp <;> simp [hgen, pyTruthyOptStr, hg]
  · unfold get_local_filename
    rw [if_pos h304]
    simp [hgen, pyTruthyOptStr, hg, Cache.get_local_file, hc]

theorem C4_witness :
    (get_local_filename cacheGP "u" false resp304).ifNoneMatch = some "g" ∧
    (get_local_filename cacheGP "u" false resp304).out = GlfOut.filename "p" ∧
    (get_local_filename cacheGP "u" false resp304).cache = cacheGP := by
  obtain ⟨h1, h2⟩ := C4_conditional_get_cache_hit cacheGP "u" false resp304
    (CacheEntry.mk "g" "p") (by decide) (by decide)
  exact ⟨h1, (h2 rfl).1, (h2 rfl).2⟩

/-- Claim C5: a not-found (404) answer expires the cache entry for the URL
and then surfaces the error: with no completion routine the call raises
IOError carrying the body text, with one it delivers a failure Status
(code 500, no message, by the requests truthiness of a failed response)
to the routine and returns its value. -/
theorem C5_notfound_expires_then_reports (c : Cache) (url : String) (hasCb : Bool)
    (resp : Response) (h404 : resp.status_code = 404) :
    (get_local_filename c url hasCb resp).cache url = none ∧
    (hasCb = false →
      (get_local_filename c url hasCb resp).out =
        GlfOut.reported (ReportOut.ioError resp.text)) ∧
    (hasCb = true →
      (get_local_filename c url hasCb resp).delivered = some (Status.mk 500 none) ∧
      (get_local_filename c url hasCb resp).out =
        GlfOut.reported (ReportOut.cbReturn (Status.mk 500 none))) := by
  have hok : resp.ok = false := by
    simp [Response.ok, h404]
  unfold get_local_filename report_error
  cases hasCb <;>
    simp [h404, hok, Response.pyTruthy, Cache.expire, ReportOut.delivered]

theorem C5_witness :
    (get_local_filename cacheGP "u" false resp404).cache "u" = none ∧
    (get_local_filename cacheGP "u" false resp404).out =
      GlfOut.reported (ReportOut.ioError "gone") := by
  obtain ⟨h1, h2, _⟩ := C5_notfound_expires_then_reports cacheGP "u" false resp404 rfl
  exact ⟨h1, h2 rfl⟩

/-- Claim C8: read_file returns the body bytes on a successful response and
the empty string on any non-success response, signalling no error on either
path. -/
theorem C8_read_file_swallows_errors (resp : Response) :
    (resp.ok = true → read_file resp = resp.body) ∧
    (resp.ok = false → read_file resp = "") := by
  unfold read_file
  constructor <;> intro h <;> simp [h]

theorem C8_witness : read_file resp500 = "" ∧ read_file resp200g1 = "body" :=
  ⟨(C8_read_file_swallows_errors resp500).2 rfl,
   (C8_read_file_swallows_errors resp200g1).1 rfl⟩

/-- Claim C9: list_files on a non-success response yields the empty
sequence; the failure is silently swallowed, with no exception raised and
no status reported, matching read_file's quirk. -/
theorem C9_list_files_swallows_errors (parseStats : String → List LocationStat)
    (resp : Response) (h : resp.ok = false) :
    list_files parseStats resp = [] := by
  unfold list_files
  simp [h]

theorem C9_witness :
    list_files (fun s => [LocationStat.mk s]) resp500 = [] :=
  C9_list_files_swallows_errors (fun s => [LocationStat.mk s]) resp500 rfl

/-- Claim C10: upload_local_file with a (non-empty) local_filename, the
default delete flag and a completion routine unlinks the named file even
when the upload failed; the failure is delivered as a Status (the
cbReturn outcome) and the source file is destroyed anyway. -/
theorem C10_failed_upload_still_unlinks (fname : String) (resp : Response)
    (hf : fname ≠ "") (hr : resp.ok = false) :
    (upload_local_file (some fname) true true resp).unlinked = true ∧
    (upload_local_file (some fname) true true resp).rep =
      ReportOut.cbReturn (Status.mk 500 none) := by
  unfold upload_local_file upload_file_object report_error
  simp [hr, Response.pyTruthy, pyTruthyOptStr, hf]

/-- Claim C2: in both get_local_filename and read_modify_write_local_file
the cached generation for a URL is only ever advanced to a generation
carried by the ETag of a response satisfying ok — a confirmed GET stream
into the cache or a confirmed PUT commit — and when the PUT response is not
ok the call leaves the cache exactly as its GET phase left it, so a failed
upload never advances the recorded generation. -/
theorem C2_cache_generation_server_confirmed (c : Cache) (url : String) (hasCb : Bool)
    (resp : Response) (envs : Nat → AttemptEnv) (g : String) :
    (Cache.get_generation (get_local_filename c url hasCb resp).cache url = some g →
      Cache.get_generation c url = some g ∨
      (resp.ok = true ∧ etagGen resp = some g)) ∧
    (Cache.get_generation (read_modify_write_local_file c url envs).cache url = some g →
      Cache.get_generation c url = some g ∨
      ((envs 0).getResp.ok = true ∧ etagGen (envs 0).getResp = some g) ∨
      ((envs 0).putResp.ok = true ∧ etagGen (envs 0).putResp = some g)) ∧
    ((envs 0).putResp.ok = false →
      (read_modify_write_local_file c url envs).cache =
        (get_local_filename c url false (envs 0).getResp).cache) := by
  have hspec := rmwAttempt_spec url 0 (envs 0) (LoopState.mk c none [] 0 [])
    (read_modify_write_local_file c url envs) (rmw_eq_attempt0 c url envs).symm
  refine ⟨fun h => glf_gen_confirmed c url hasCb resp g h, fun h => ?_, fun hfail => ?_⟩
  · rcases hspec with ⟨hc, _⟩ | ⟨hok, ng, fname, hge, hc, _⟩
    · rw [hc] at h
      rcases glf_gen_confirmed c url false (envs 0).getResp g h with h1 | h2
      · exact Or.inl h1
      · exact Or.inr (Or.inl h2)
    · rw [hc] at h
      simp [Cache.get_generation, Cache.update_local_file_generation] at h
      exact Or.inr (Or.inr ⟨hok, h ▸ hge⟩)
  · rcases hspec with ⟨hc, _⟩ | ⟨hok, _⟩
    · exact hc
    · rw [hok] at hfail
      cases hfail

theorem C2_witness :
    Cache.get_generation emptyCache "u" = some "g1" ∨
    (resp200g1.ok = true ∧ etagGen resp200g1 = some "g1") :=
  (C2_cache_generation_server_confirmed emptyCache "u" false resp200g1 envCreate
    "g1").1 (by decide)

/-- Claim C3: every scratch file created for the unconditional-create path
that is still on disk when the call exits is exactly the file a successful
upload commit transferred into cache ownership; on every other exit path —
success from a cached file, error return, or an exception from the
modification callback — the scratch file has been unlinked. -/
theorem C3_scratch_cleanup (c : Cache) (url : String) (envs : Nat → AttemptEnv)
    (p : String) (hp : p ∈ (read_modify_write_local_file c url envs).live) :
    ∃ e, (read_modify_write_local_file c url envs).cache url = some e ∧
      e.path = p := by
  have hspec := rmwAttempt_spec url 0 (envs 0) (LoopState.mk c none [] 0 [])
    (read_modify_write_local_file c url envs) (rmw_eq_attempt0 c url envs).symm
  rcases hspec with ⟨_, hl⟩ | ⟨_, ng, fname, _, hc, hl | ⟨_, hl⟩⟩
  · rw [hl] at hp
    cases hp
  · rw [hl] at hp
    cases hp
  · rw [hl] at hp
    rcases List.mem_cons.1 hp with hpf | hnil
    · refine ⟨CacheEntry.mk ng fname, ?_, hpf.symm⟩
      rw [hc]
      simp [Cache.update_local_file_generation]
    · cases hnil

theorem C3_witness :
    ∃ e, (read_modify_write_local_file emptyCache "u" envCreate).cache "u" = some e ∧
      e.path = "scratch-0" :=
  C3_scratch_cleanup emptyCache "u" envCreate "scratch-0" (by decide)

/-- Claim C6 counterexample: get_local_filename invoked with a completion
routine, against a server answering not-modified (304), returns the cached
path without ever invoking the routine, so this outcome is not delivered
to the callback as a Status. -/
theorem C6_counterexample_304_callback_not_invoked :
    (get_local_filename cacheGP "u" true resp304).delivered = none ∧
    (get_local_filename cacheGP "u" true resp304).out = GlfOut.filename "p" :=
  ⟨rfl, rfl⟩

/-- Claim C6 as amended: for upload_file_object and delete with a
completion routine, every outcome is delivered to the routine as a Status
(message text populated only on failure) and nothing is raised; a
get_local_filename call with a completion routine delivers a Status and
raises nothing on every path except the not-modified (304) cache hit —
which returns the cached path without invoking the routine — provided a
successful response carries a parseable ETag as the wire contract
requires; and with no completion routine a failed response raises IOError
carrying the response body text. -/
theorem C6_amended_callback_channel (resp : Response) (c : Cache) (url : String) :
    ((∃ st, (upload_file_object true resp).delivered = some st) ∧
     (upload_file_object true resp).raisesErr = false ∧
     (∀ st, (upload_file_object true resp).delivered = some st →
        st.message ≠ none → resp.ok = false)) ∧
    ((∃ st, (delete true resp).delivered = some st) ∧
     (delete true resp).raisesErr = false) ∧
    (resp.status_code ≠ 304 → (resp.ok = true → etagGen resp ≠ none) →
      (∃ st, (get_local_filename c url true resp).delivered = some st) ∧
      (get_local_filename c url true resp).raisesErr = false) ∧
    (resp.ok = false →
      upload_file_object false resp = ReportOut.ioError resp.text ∧
      (resp.status_code ≠ 304 →
        (get_local_filename c url false resp).out =
          GlfOut.reported (ReportOut.ioError resp.text))) := by
  refine ⟨?_, ?_, fun h304 het => ?_, fun hok => ⟨?_, fun h304 => ?_⟩⟩
  · unfold upload_file_object report_error
    cases hok : resp.ok <;>
      simp [hok, Response.pyTruthy, ReportOut.delivered, ReportOut.raisesErr]
  · unfold delete report_error
    cases hok : resp.ok <;>
      simp [hok, Response.pyTruthy, ReportOut.delivered, ReportOut.raisesErr]
  · unfold get_local_filename report_error
    rw [if_neg h304]
    cases hok : resp.ok
    · simp [hok, Response.pyTruthy, ReportOut.delivered, GlfResult.raisesErr,
        ReportOut.raisesErr]
    · cases hge : etagGen resp
      · exact absurd hge (het hok)
      · simp [hok, hge, Response.pyTruthy, ReportOut.delivered, GlfResult.raisesErr,
          ReportOut.raisesErr]
  · unfold upload_file_object report_error
    simp [hok, Response.pyTruthy]
  · unfold get_local_filename report_error
    rw [if_neg h304]
    simp [hok, Response.pyTruthy]

theorem C6_amended_witness :
    (∃ st, (upload_file_object true resp500).delivered = some st) ∧
    upload_file_object false resp500 = ReportOut.ioError "boom" ∧
    (get_local_filename cacheGP "u" false resp500).out =
      GlfOut.reported (ReportOut.ioError "boom") := by
  obtain ⟨h1, _, _, h4⟩ := C6_amended_callback_channel resp500 cacheGP "u"
  exact ⟨h1.1, (h4 rfl).1, (h4 rfl).2 (by decide)⟩

/-- Claim C7: policy issuance defaults absent methods to GET and PUT and an
absent expiration to now plus 7 days, anchors the path so it starts with a
slash, and returns a Location carrying the deterministically serialized
policy bytes, the signature over exactly those bytes, the configured base
URL, and the anchored path. -/
theorem C7_policy_issuance (cfg : ServerConfig) (now : Nat) (pp : String)
    (methodsArg : Option (List String)) (expirationArg : Option Nat)
    (tmpl : String) (pub : Bool) :
    HTTPLocation.New cfg now pp methodsArg expirationArg tmpl pub =
      HTTPLocation.mk cfg.base_url
        (if pyStartswith pp "/" then pp else "/" ++ pp) tmpl
        (policyToJson (URLPolicy.mk (if pyStartswith pp "/" then pp else "/" ++ pp)
          tmpl (expirationArg.getD (now + 60 * 60 * 24 * 7))
          (methodsArg.getD ["GET", "PUT"]) pub))
        (cfg.sign (policyToJson (URLPolicy.mk
          (if pyStartswith pp "/" then pp else "/" ++ pp) tmpl
          (expirationArg.getD (now + 60 * 60 * 24 * 7))
          (methodsArg.getD ["GET", "PUT"]) pub))) ∧
    pyStartswith (HTTPLocation.New cfg now pp methodsArg expirationArg tmpl pub).pathPrefix
      "/" = true := by
  constructor
  · cases methodsArg <;> cases expirationArg <;> rfl
  · have hpp : (HTTPLocation.New cfg now pp methodsArg expirationArg tmpl pub).pathPrefix =
        if pyStartswith pp "/" then pp else "/" ++ pp := by
      cases methodsArg <;> cases expirationArg <;> rfl
    rw [hpp]
    by_cases h : pyStartswith pp "/"
    · simp [h]
    · simp only [h, if_false]
      simp [pyStartswith, String.data_append, List.isPrefixOf]

theorem C10_witness :
    (upload_local_file (some "source.bin") true true resp500).unlinked = true ∧
    (upload_local_file (some "source.bin") true true resp500).rep =
      ReportOut.cbReturn (Status.mk 500 none) :=
  C10_failed_upload_still_unlinks "source.bin" resp500 (by decide) rfl

end RekallHTTP
